import Mathlib

/-!
Verification of the SkillSwap data-access layer (crud.py / main.py / models.py).

The SQLite database is embedded as explicit state: each table is a list of
rows in insertion (rowid) order.  SQLAlchemy query combinators are embedded
as list operations: `filter(...).first()` is `List.find?`, `.all()` on a
filter is `List.filter`, `order_by(asc)` / `order_by(desc)` is a sort by the
key, `.update({...})` maps the update over every matching row, and mutating
an ORM object returned by `.first()` followed by `commit` updates the first
matching row in place.  `datetime` values are embedded as integer seconds;
each crud call that reads the clock takes the current time `now` as an
explicit argument.  Python's `timedelta.seconds` field (used to compute
video-call durations) is the normalized seconds component of the difference,
i.e. the Euclidean remainder of the difference modulo 86400.

The password primitives `hash_password` / `verify_password` live in
`auth.py`, which the repository treats as an opaque external contract
(hash : plaintext → digest, verify : plaintext → digest → Bool); they are
embedded as function parameters of the operations that call them.
-/

/-- Row of the `users` table (models.User). -/
structure User where
  id : Nat
  name : String
  email : String
  password : String
  profile_photo : Option String := none
  about : Option String := none
  linkedin_url : Option String := none
  github_url : Option String := none
  twitter_url : Option String := none
deriving Repr, DecidableEq

/-- Row of the `user_skills` table (models.UserSkill); a skill offer. -/
structure UserSkill where
  id : Nat
  user_id : Nat
  skill_name : String
  skill_level : String
deriving Repr, DecidableEq

/-- Row of the `skill_requests` table (models.SkillRequest). -/
structure SkillRequest where
  id : Nat
  user_id : Nat
  skill_name : String
  description : Option String := none
deriving Repr, DecidableEq

/-- Row of the `messages` table (models.Message).  `is_read` is the raw
integer column (0 = unread, 1 = read); `timestamp` is server-assigned. -/
structure Message where
  id : Nat
  sender_id : Nat
  receiver_id : Nat
  content : String
  timestamp : Nat
  is_read : Nat := 0
deriving Repr, DecidableEq

/-- Row of the `video_sessions` table (models.VideoSession). -/
structure VideoSession where
  id : Nat
  room_id : String
  user1_email : String
  user2_email : String
  meeting_url : String
  status : String := "created"
  created_at : Int
  started_at : Option Int := none
  ended_at : Option Int := none
  duration_seconds : Option Int := none
deriving Repr, DecidableEq

/-- The database state: one list per table (insertion order), plus the
autoincrement counters backing the integer primary keys. -/
structure DB where
  users : List User := []
  user_skills : List UserSkill := []
  skill_requests : List SkillRequest := []
  messages : List Message := []
  video_sessions : List VideoSession := []
  next_user_id : Nat := 1
  next_message_id : Nat := 1
  next_session_id : Nat := 1
deriving Repr, DecidableEq

/-- schemas.UserCreate. -/
structure UserCreate where
  name : String
  email : String
  password : String
deriving Repr, DecidableEq

/-- schemas.MessageCreate. -/
structure MessageCreate where
  receiver_email : String
  content : String
deriving Repr, DecidableEq

/-- schemas.VideoSessionCreate. -/
structure VideoSessionCreate where
  user1_email : String
  user2_email : String
deriving Repr, DecidableEq

/-- An HTTPException raised by a route handler. -/
structure HTTPError where
  status_code : Nat
  detail : String
deriving Repr, DecidableEq

/-- crud.get_user_by_email: `query(User).filter(email == ...).first()`. -/
def get_user_by_email (db : DB) (email : String) : Option User :=
  db.users.find? (fun u => u.email == email)

/-- crud.get_user_by_id: `query(User).filter(id == ...).first()`. -/
def get_user_by_id (db : DB) (user_id : Nat) : Option User :=
  db.users.find? (fun u => u.id == user_id)

/-- The `User.skills_offered` relationship: all UserSkill rows whose
`user_id` equals the user's id. -/
def skills_offered (db : DB) (u : User) : List UserSkill :=
  db.user_skills.filter (fun s => s.user_id == u.id)

/-- The `User.skills_needed` relationship: all SkillRequest rows whose
`user_id` equals the user's id. -/
def skills_needed (db : DB) (u : User) : List SkillRequest :=
  db.skill_requests.filter (fun r => r.user_id == u.id)

/-- crud.create_user: hash the password, insert a fresh row, return it. -/
def create_user (hashp : String → String) (db : DB) (user : UserCreate) :
    User × DB :=
  let new_user : User :=
    { id := db.next_user_id
      name := user.name
      email := user.email
      password := hashp user.password }
  (new_user,
   { db with
      users := db.users ++ [new_user]
      next_user_id := db.next_user_id + 1 })

/-- main.register_user (POST /register): reject with 400 if the email is
already present, otherwise create the user. -/
def register_user (hashp : String → String) (db : DB) (user : UserCreate) :
    Except HTTPError User × DB :=
  match get_user_by_email db user.email with
  | some _ => (.error ⟨400, "Email already registered"⟩, db)
  | none =>
      let (nu, db') := create_user hashp db user
      (.ok nu, db')

/-- main.verify_user_password (POST /verify-password): 404 when the email
is unknown, otherwise the result of the external verify primitive on the
supplied password and the stored hash. -/
def verify_user_password (verify : String → String → Bool) (db : DB)
    (email password : String) : Except HTTPError Bool :=
  match get_user_by_email db email with
  | none => .error ⟨404, "User not found"⟩
  | some user => .ok (verify password user.password)

/-- One element of the list returned by crud.find_matches_by_email.
`matched_user` embeds the `get_user_by_id` lookup the code performs to
fill the `matched_user` dict (in Python a missing user would crash the
attribute access).  `their_request` is only populated on "you_can_teach"
records and `their_offer` only on "you_can_learn" records. -/
structure MatchRecord where
  match_type : String
  skill : String
  their_skill_level : String
  matched_user : Option User
  their_request : Option String := none
  their_offer : Option String := none
deriving Repr, DecidableEq

/-- The "you_can_teach" record emitted for one (offer, request) pair. -/
def teachRecord (db : DB) (off : UserSkill) (req : SkillRequest) :
    MatchRecord :=
  { match_type := "you_can_teach"
    skill := off.skill_name
    their_skill_level := off.skill_level
    matched_user := get_user_by_id db req.user_id
    their_request := req.description }

/-- The "you_can_learn" record emitted for one (request, offer) pair. -/
def learnRecord (db : DB) (need : SkillRequest) (off : UserSkill) :
    MatchRecord :=
  { match_type := "you_can_learn"
    skill := need.skill_name
    their_skill_level := off.skill_level
    matched_user := get_user_by_id db off.user_id
    their_offer :=
      some ("Can teach " ++ off.skill_name ++ " at " ++ off.skill_level
            ++ " level") }

/-- crud.find_matches_by_email: for every skill the user offers, one
"you_can_teach" record per SkillRequest row with the same (case-sensitive)
skill name and a different user_id; then, for every skill the user needs,
one "you_can_learn" record per UserSkill row with the same name and a
different user_id. -/
def find_matches_by_email (db : DB) (email : String) : List MatchRecord :=
  match get_user_by_email db email with
  | none => []
  | some user =>
      ((skills_offered db user).flatMap (fun off =>
        (((db.skill_requests.filter
              (fun r => r.skill_name == off.skill_name)).filter
            (fun r => r.user_id != user.id)).map (teachRecord db off))))
      ++
      ((skills_needed db user).flatMap (fun need =>
        (((db.user_skills.filter
              (fun o => o.skill_name == need.skill_name)).filter
            (fun o => o.user_id != user.id)).map (learnRecord db need))))

/-- crud.send_message: resolve sender and receiver by email; if either is
missing return None and leave the store untouched, else insert one message
row with the server clock as timestamp and the unread default. -/
def send_message (db : DB) (now : Nat) (sender_email : String)
    (message_data : MessageCreate) : Option Message × DB :=
  match get_user_by_email db sender_email,
        get_user_by_email db message_data.receiver_email with
  | some sender, some receiver =>
      let new_message : Message :=
        { id := db.next_message_id
          sender_id := sender.id
          receiver_id := receiver.id
          content := message_data.content
          timestamp := now
          is_read := 0 }
      (some new_message,
       { db with
          messages := db.messages ++ [new_message]
          next_message_id := db.next_message_id + 1 })
  | _, _ => (none, db)

/-- Timestamp-ascending order on messages (ORDER BY timestamp ASC). -/
def msgLe (m1 m2 : Message) : Prop := m1.timestamp ≤ m2.timestamp

instance : DecidableRel msgLe := fun m1 m2 => Nat.decLe m1.timestamp m2.timestamp

instance : IsTotal Message msgLe := ⟨fun a b => Nat.le_total a.timestamp b.timestamp⟩

instance : IsTrans Message msgLe := ⟨fun _ _ _ h1 h2 => Nat.le_trans h1 h2⟩

/-- Predicate selecting the messages of the (u1, u2) conversation:
sent by u1 to u2 or by u2 to u1. -/
def conversationFilter (u1 u2 : User) (m : Message) : Bool :=
  (m.sender_id == u1.id && m.receiver_id == u2.id) ||
  (m.sender_id == u2.id && m.receiver_id == u1.id)

/-- One element of the list returned by crud.get_conversation, with the
sender/receiver annotations the code adds (names defaulted to "Unknown"
when the related user row is gone, emails to null). -/
structure FormattedMessage where
  id : Nat
  sender_id : Nat
  sender_email : Option String
  sender_name : String
  receiver_id : Nat
  receiver_email : Option String
  receiver_name : String
  content : String
  timestamp : Nat
  is_read : Bool
deriving Repr, DecidableEq

/-- The per-row formatting step of crud.get_conversation. -/
def format_conversation_message (db : DB) (m : Message) : FormattedMessage :=
  let sender := get_user_by_id db m.sender_id
  let receiver := get_user_by_id db m.receiver_id
  { id := m.id
    sender_id := m.sender_id
    sender_email := sender.map (fun u => u.email)
    sender_name := (sender.map (fun u => u.name)).getD "Unknown"
    receiver_id := m.receiver_id
    receiver_email := receiver.map (fun u => u.email)
    receiver_name := (receiver.map (fun u => u.name)).getD "Unknown"
    content := m.content
    timestamp := m.timestamp
    is_read := m.is_read == 1 }

/-- The message rows of crud.get_conversation before formatting:
both directions between the two resolved users, ordered by timestamp
ascending. -/
def conversation_messages (db : DB) (u1 u2 : User) : List Message :=
  List.insertionSort msgLe (db.messages.filter (conversationFilter u1 u2))

/-- crud.get_conversation: empty when either email is unknown, otherwise
the timestamp-ascending messages between the two users, formatted. -/
def get_conversation (db : DB) (user1_email user2_email : String) :
    List FormattedMessage :=
  match get_user_by_email db user1_email,
        get_user_by_email db user2_email with
  | some u1, some u2 =>
      (conversation_messages db u1 u2).map (format_conversation_message db)
  | _, _ => []

/-- The rows flipped by crud.mark_messages_as_read: sent by `other` to
`user` and still unread. -/
def unreadFrom (other user : User) (m : Message) : Bool :=
  m.sender_id == other.id && m.receiver_id == user.id && m.is_read == 0

/-- crud.mark_messages_as_read: bulk UPDATE setting is_read = 1 on every
message from `other_user` to `user` that is still unread; returns the
number of rows updated (0, with no change, if either email is unknown). -/
def mark_messages_as_read (db : DB) (user_email other_user_email : String) :
    Nat × DB :=
  match get_user_by_email db user_email,
        get_user_by_email db other_user_email with
  | some user, some other_user =>
      let updated := (db.messages.filter (unreadFrom other_user user)).length
      (updated,
       { db with
          messages := db.messages.map (fun m =>
            if unreadFrom other_user user m then { m with is_read := 1 }
            else m) })
  | _, _ => (0, db)

/-- crud.get_unread_count: number of messages to the resolved user with
the read flag unset (0 if the email is unknown). -/
def get_unread_count (db : DB) (user_email : String) : Nat :=
  match get_user_by_email db user_email with
  | none => 0
  | some user =>
      (db.messages.filter
        (fun m => m.receiver_id == user.id && m.is_read == 0)).length

/-- crud.create_video_session: persist a new row with status "created".
The room identifier is minted from the clock and a random suffix; both the
clock reading and the minted identifier are ambient inputs here. -/
def create_video_session (db : DB) (now : Int) (room_id : String)
    (session_data : VideoSessionCreate) : VideoSession × DB :=
  let new_session : VideoSession :=
    { id := db.next_session_id
      room_id := room_id
      user1_email := session_data.user1_email
      user2_email := session_data.user2_email
      meeting_url := "https://meet.jit.si/" ++ room_id
      status := "created"
      created_at := now }
  (new_session,
   { db with
      video_sessions := db.video_sessions ++ [new_session]
      next_session_id := db.next_session_id + 1 })

/-- Replace the first element satisfying `p` by its image under `f`
(mutating the single ORM object returned by `.first()`). -/
def updateFirst (p : α → Bool) (f : α → α) : List α → List α
  | [] => []
  | x :: xs => if p x then f x :: xs else x :: updateFirst p f xs

/-- The field updates crud.update_video_session_status performs on the
found session: always overwrite status; on "active" stamp started_at only
if it is not yet set; on "ended" stamp ended_at and, when started_at is
set, store `(now - started_at).seconds`, i.e. the difference's seconds
component modulo 86400. -/
def apply_status_update (now : Int) (status : String) (s : VideoSession) :
    VideoSession :=
  let s1 := { s with status := status }
  if status == "active" && s1.started_at.isNone then
    { s1 with started_at := some now }
  else if status == "ended" then
    let s2 := { s1 with ended_at := some now }
    match s2.started_at with
    | some st => { s2 with duration_seconds := some ((now - st).emod 86400) }
    | none => s2
  else s1

/-- crud.update_video_session_status: look up the session by room_id,
apply the status update to that row, return the updated row (None when
the room is unknown). -/
def update_video_session_status (db : DB) (now : Int)
    (room_id status : String) : Option VideoSession × DB :=
  match db.video_sessions.find? (fun s => s.room_id == room_id) with
  | none => (none, db)
  | some s =>
      (some (apply_status_update now status s),
       { db with
          video_sessions :=
            updateFirst (fun t => t.room_id == room_id)
              (apply_status_update now status) db.video_sessions })

/-- created_at-descending order on sessions (ORDER BY created_at DESC). -/
def sessionCreatedGe (s1 s2 : VideoSession) : Prop :=
  s2.created_at ≤ s1.created_at

instance : DecidableRel sessionCreatedGe :=
  fun s1 s2 => Int.decLe s2.created_at s1.created_at

instance : IsTotal VideoSession sessionCreatedGe :=
  ⟨fun a b => (Int.le_total b.created_at a.created_at)⟩

instance : IsTrans VideoSession sessionCreatedGe :=
  ⟨fun _ _ _ h1 h2 => Int.le_trans h2 h1⟩

/-- crud.get_active_video_call: the most recent session (created_at
descending, first row) where the polling user is the second participant
and the status is still exactly "created". -/
def get_active_video_call (db : DB) (email : String) : Option VideoSession :=
  (List.insertionSort sessionCreatedGe
    (db.video_sessions.filter
      (fun s => s.user2_email == email && s.status == "created"))).head?

/-- crud.decline_video_call: look up the session by room_id; if present
set its status to "declined" (whatever it currently is) and return it;
if absent return None and change nothing. -/
def decline_video_call (db : DB) (room_id : String) :
    Option VideoSession × DB :=
  match db.video_sessions.find? (fun s => s.room_id == room_id) with
  | none => (none, db)
  | some s =>
      (some { s with status := "declined" },
       { db with
          video_sessions :=
            updateFirst (fun t => t.room_id == room_id)
              (fun t => { t with status := "declined" }) db.video_sessions })

/-- main.decline_call_endpoint (POST /video/decline/{room_id}): call the
crud operation and report success unconditionally. -/
def decline_call_endpoint (db : DB) (room_id : String) : String × DB :=
  ("Call declined", (decline_video_call db room_id).2)

/-- The response of main.check_incoming_call (GET /video/check-incoming). -/
structure IncomingCallResponse where
  has_call : Bool
  room_id : Option String := none
  caller : Option String := none
deriving Repr, DecidableEq

/-- main.check_incoming_call: wrap crud.get_active_video_call. -/
def check_incoming_call (db : DB) (email : String) : IncomingCallResponse :=
  match get_active_video_call db email with
  | some call =>
      { has_call := true
        room_id := some call.room_id
        caller := some call.user1_email }
  | none => { has_call := false }

/-- The operations of the video-session subsystem, with their ambient
inputs (clock readings, minted room identifiers, caller-supplied status
strings) as constructor arguments. -/
inductive VideoOp where
  | create (data : VideoSessionCreate) (room_id : String) (now : Int)
  | update (room_id status : String) (now : Int)
  | decline (room_id : String)
deriving Repr, DecidableEq

/-- State transition of one video-session operation. -/
def applyVideoOp (db : DB) : VideoOp → DB
  | .create data room_id now => (create_video_session db now room_id data).2
  | .update room_id status now =>
      (update_video_session_status db now room_id status).2
  | .decline room_id => (decline_video_call db room_id).2

/-- State after a sequence of video-session operations. -/
def runVideoOps (db : DB) : List VideoOp → DB
  | [] => db
  | op :: ops => runVideoOps (applyVideoOp db op) ops

/-- Membership in the documented status set. -/
def statusOk (s : String) : Bool :=
  s == "created" || s == "active" || s == "ended" || s == "declined"

/-- duration_seconds is set only when both started_at and ended_at are. -/
def durationOk (v : VideoSession) : Bool :=
  !v.duration_seconds.isSome || (v.started_at.isSome && v.ended_at.isSome)

/-- An update operation whose status argument stays inside the documented
status vocabulary of the state machine. -/
def opStatusOk : VideoOp → Bool
  | .update _ status _ => statusOk status
  | _ => true

/-- Predicate on match records: a "you_can_teach" record for skill `s`
whose matched user is `V`. -/
def isTeachMatchFor (V : User) (s : String) (m : MatchRecord) : Bool :=
  m.match_type == "you_can_teach" && m.skill == s &&
    m.matched_user == some V

/-- Predicate on match records: a "you_can_learn" record for skill `s`
whose matched user is `U`. -/
def isLearnMatchFor (U : User) (s : String) (m : MatchRecord) : Bool :=
  m.match_type == "you_can_learn" && m.skill == s &&
    m.matched_user == some U

/-- Every stored video session carries one of the four documented status
strings. -/
def statuses_ok (db : DB) : Prop :=
  ∀ v ∈ db.video_sessions, statusOk v.status = true

/-- Every stored video session has duration_seconds set only when both
started_at and ended_at are set. -/
def durations_ok (db : DB) : Prop :=
  ∀ v ∈ db.video_sessions, durationOk v = true

/-! Concrete stores used to instantiate the theorems. -/

def uAlice : User :=
  { id := 1, name := "Alice", email := "alice@x.com", password := "hash1" }

def uBob : User :=
  { id := 2, name := "Bob", email := "bob@x.com", password := "hash2" }

def dbOneUser : DB := { users := [uAlice], next_user_id := 2 }

def dbTwoUsers : DB := { users := [uAlice, uBob], next_user_id := 3 }

def sStarted : VideoSession :=
  { id := 1, room_id := "roomA", user1_email := "alice@x.com"
    user2_email := "bob@x.com", meeting_url := "https://meet.jit.si/roomA"
    status := "active", created_at := 0, started_at := some 0 }

def dbStarted : DB := { video_sessions := [sStarted], next_session_id := 2 }

def sEnded : VideoSession :=
  { id := 1, room_id := "roomB", user1_email := "alice@x.com"
    user2_email := "bob@x.com", meeting_url := "https://meet.jit.si/roomB"
    status := "ended", created_at := 0, started_at := some 0
    ended_at := some 7, duration_seconds := some 7 }

def dbEnded : DB := { video_sessions := [sEnded], next_session_id := 2 }

def mMsg1 : Message :=
  { id := 1, sender_id := 1, receiver_id := 2, content := "hello"
    timestamp := 10, is_read := 0 }

def mMsg2 : Message :=
  { id := 2, sender_id := 2, receiver_id := 1, content := "yo"
    timestamp := 11, is_read := 0 }

def dbMsgs : DB :=
  { users := [uAlice, uBob], messages := [mMsg1, mMsg2]
    next_user_id := 3, next_message_id := 3 }

def sCall1 : VideoSession :=
  { id := 1, room_id := "c1", user1_email := "alice@x.com"
    user2_email := "bob@x.com", meeting_url := "https://meet.jit.si/c1"
    status := "created", created_at := 0 }

def sCall2 : VideoSession :=
  { id := 2, room_id := "c2", user1_email := "alice@x.com"
    user2_email := "bob@x.com", meeting_url := "https://meet.jit.si/c2"
    status := "created", created_at := 5 }

def sCall3 : VideoSession :=
  { id := 3, room_id := "c3", user1_email := "carol@x.com"
    user2_email := "bob@x.com", meeting_url := "https://meet.jit.si/c3"
    status := "active", created_at := 9 }

def dbCalls : DB :=
  { video_sessions := [sCall1, sCall2, sCall3], next_session_id := 4 }

def sCreatedRow : VideoSession :=
  { id := 1, room_id := "roomC", user1_email := "alice@x.com"
    user2_email := "bob@x.com", meeting_url := "https://meet.jit.si/roomC"
    status := "created", created_at := 0 }

def dbCreatedRow : DB :=
  { video_sessions := [sCreatedRow], next_session_id := 2 }

def opsW : List VideoOp :=
  [.create { user1_email := "alice@x.com", user2_email := "bob@x.com" }
     "roomW" 0,
   .update "roomW" "active" 5, .update "roomW" "ended" 9,
   .decline "roomW"]

def skGuitar : UserSkill :=
  { id := 1, user_id := 1, skill_name := "guitar", skill_level := "expert" }

def rqGuitar : SkillRequest :=
  { id := 1, user_id := 2, skill_name := "guitar"
    description := some "want to learn" }

def dbMatch : DB :=
  { users := [uAlice, uBob], user_skills := [skGuitar]
    skill_requests := [rqGuitar], next_user_id := 3 }

/-! Helper lemmas. -/

/-- updateFirst relates the old and new lists row by row: every row is
either untouched or, when it satisfies the predicate, replaced by its
image under the update. -/
theorem forall₂_updateFirst {α : Type} (p : α → Bool) (f : α → α)
    (l : List α) :
    List.Forall₂ (fun t t' => t' = t ∨ (p t = true ∧ t' = f t)) l
      (updateFirst p f l) := by
  induction l with
  | nil => exact .nil
  | cons x xs ih =>
      by_cases hx : p x
      · simp only [updateFirst, if_pos hx]
        exact .cons (Or.inr ⟨hx, rfl⟩)
          (List.forall₂_same.mpr fun y _ => Or.inl rfl)
      · simp only [updateFirst, if_neg hx]
        exact .cons (Or.inl rfl) ih

/-! Claim theorems. -/

/-- C3: when a user with the given email is already stored, a second
register call fails with 400 "Email already registered" and the store is
returned unchanged: no second row is created and the stored user's record
is identical before and after. -/
theorem register_duplicate_email_conflict (hashp : String → String)
    (db : DB) (user : UserCreate) (u0 : User)
    (h : get_user_by_email db user.email = some u0) :
    register_user hashp db user =
      (.error ⟨400, "Email already registered"⟩, db) := by
  simp [register_user, h]

/-- Witness for C3 at a concrete store holding one user. -/
theorem register_duplicate_email_conflict_witness :
    get_user_by_email dbOneUser "alice@x.com" = some uAlice ∧
    register_user (fun p => p) dbOneUser
        { name := "Mallory", email := "alice@x.com", password := "pw" } =
      (.error ⟨400, "Email already registered"⟩, dbOneUser) :=
  ⟨rfl,
   register_duplicate_email_conflict (fun p => p) dbOneUser
     { name := "Mallory", email := "alice@x.com", password := "pw" }
     uAlice rfl⟩

/-- C4: when no user carries the email, the verify-password endpoint
fails with 404 whatever the verification primitive is (so the primitive
is never consulted); when a user is found, the endpoint succeeds and its
boolean payload is exactly the primitive applied to the supplied password
and the stored hash. -/
theorem verify_user_password_spec (verify : String → String → Bool)
    (db : DB) (email password : String) :
    (get_user_by_email db email = none →
      ∀ v : String → String → Bool,
        verify_user_password v db email password =
          .error ⟨404, "User not found"⟩) ∧
    (∀ u : User, get_user_by_email db email = some u →
      verify_user_password verify db email password =
        .ok (verify password u.password)) := by
  refine ⟨fun h v => ?_, fun u h => ?_⟩
  · simp [verify_user_password, h]
  · simp [verify_user_password, h]

/-- Witness for C4: one present and one absent email in a concrete
store, with a concrete verification primitive. -/
theorem verify_user_password_spec_witness :
    verify_user_password (fun p d => p ++ "!" == d) dbOneUser
        "alice@x.com" "pw" = .ok (("pw!" : String) == "hash1") ∧
    verify_user_password (fun p d => p ++ "!" == d) dbOneUser
        "bob@x.com" "pw" = .error ⟨404, "User not found"⟩ :=
  ⟨(verify_user_password_spec (fun p d => p ++ "!" == d) dbOneUser
      "alice@x.com" "pw").2 uAlice rfl,
   (verify_user_password_spec (fun p d => p ++ "!" == d) dbOneUser
      "bob@x.com" "pw").1 rfl (fun p d => p ++ "!" == d)⟩

/-- C7: send_message returns None exactly when the sender's or the
receiver's email resolves to no stored user, and then the store is
unchanged; otherwise it returns the single freshly inserted row, which is
appended to the message table with read flag 0 and the server clock as
its timestamp. -/
theorem send_message_spec (db : DB) (now : Nat) (sender_email : String)
    (md : MessageCreate) :
    ((send_message db now sender_email md).1 = none ↔
      get_user_by_email db sender_email = none ∨
        get_user_by_email db md.receiver_email = none) ∧
    ((send_message db now sender_email md).1 = none →
      (send_message db now sender_email md).2 = db) ∧
    (∀ m, (send_message db now sender_email md).1 = some m →
      (send_message db now sender_email md).2.messages =
          db.messages ++ [m] ∧
        m.is_read = 0 ∧ m.timestamp = now) := by
  cases hs : get_user_by_email db sender_email with
  | none => simp [send_message, hs]
  | some s =>
      cases hr : get_user_by_email db md.receiver_email with
      | none => simp [send_message, hs, hr]
      | some r =>
          refine ⟨by simp [send_message, hs, hr],
                  by simp [send_message, hs, hr], ?_⟩
          intro m hm
          have hm' :
              ({ id := db.next_message_id, sender_id := s.id
                 receiver_id := r.id, content := md.content
                 timestamp := now, is_read := 0 } : Message) = m := by
            simpa [send_message, hs, hr] using hm
          subst hm'
          simp [send_message, hs, hr]

/-- Witness for C7: a delivered and an undeliverable message on a
concrete two-user store. -/
theorem send_message_spec_witness :
    (send_message dbTwoUsers 5 "alice@x.com"
        { receiver_email := "bob@x.com", content := "hi" }).1 ≠ none ∧
    (send_message dbTwoUsers 5 "alice@x.com"
        { receiver_email := "carol@x.com", content := "hi" }).1 = none ∧
    (send_message dbTwoUsers 5 "alice@x.com"
        { receiver_email := "carol@x.com", content := "hi" }).2 =
      dbTwoUsers := by
  have h1 := send_message_spec dbTwoUsers 5 "alice@x.com"
    { receiver_email := "bob@x.com", content := "hi" }
  have h2 := send_message_spec dbTwoUsers 5 "alice@x.com"
    { receiver_email := "carol@x.com", content := "hi" }
  refine ⟨fun hn => ?_, ?_, ?_⟩
  · rcases h1.1.mp hn with h | h <;> revert h <;> decide
  · exact h2.1.mpr (Or.inr (by decide))
  · exact h2.2.1 (h2.1.mpr (Or.inr (by decide)))

/-- C10: decline_video_call overwrites the found session's status with
"declined" whatever its current value, changes no other field and no
other row, and the endpoint answers "Call declined" even when no session
with the room identifier exists, in which case nothing changes. -/
theorem decline_video_call_spec (db : DB) (room_id : String) :
    (decline_call_endpoint db room_id).1 = "Call declined" ∧
    (decline_call_endpoint db room_id).2 =
      (decline_video_call db room_id).2 ∧
    (db.video_sessions.find? (fun s => s.room_id == room_id) = none →
      decline_video_call db room_id = (none, db)) ∧
    (∀ s, db.video_sessions.find? (fun s => s.room_id == room_id) =
        some s →
      (decline_video_call db room_id).1 =
        some { s with status := "declined" }) ∧
    List.Forall₂ (fun t t' => t' = t ∨
        (t.room_id = room_id ∧ t' = { t with status := "declined" }))
      db.video_sessions (decline_video_call db room_id).2.video_sessions := by
  refine ⟨rfl, rfl, fun h => by simp [decline_video_call, h],
          fun s h => by simp [decline_video_call, h], ?_⟩
  cases h : db.video_sessions.find? (fun s => s.room_id == room_id) with
  | none =>
      simp only [decline_video_call, h]
      exact List.forall₂_same.mpr fun y _ => Or.inl rfl
  | some s =>
      simp only [decline_video_call, h]
      refine (forall₂_updateFirst (fun t => t.room_id == room_id)
        (fun t => { t with status := "declined" })
        db.video_sessions).imp ?_
      intro a b hab
      exact hab.imp id (fun hh => ⟨by simpa using hh.1, hh.2⟩)

/-- Witness for C10: declining an already-"ended" session flips only its
status; declining an unknown room changes nothing. -/
theorem decline_video_call_spec_witness :
    (decline_video_call dbEnded "roomB").1 =
      some { sEnded with status := "declined" } ∧
    decline_video_call dbEnded "nope" = (none, dbEnded) := by
  have h := decline_video_call_spec dbEnded "roomB"
  have h2 := decline_video_call_spec dbEnded "nope"
  exact ⟨h.2.2.2.1 sEnded (by decide), h2.2.2.1 (by decide)⟩

/-- Counterexample to C2 as stated: for a session started at time 0,
ending it at time 86401 stores duration 1 (the timedelta seconds
component, not the 86401 elapsed whole seconds), and a repeated "ended"
call at time 86410 changes the stored duration from 1 to 10. -/
theorem update_status_c2_counterexample :
    ((update_video_session_status dbStarted 86401 "roomA"
        "ended").2.video_sessions.map VideoSession.duration_seconds =
      [some 1]) ∧
    ((update_video_session_status
        (update_video_session_status dbStarted 86401 "roomA" "ended").2
        86410 "roomA" "ended").2.video_sessions.map
          VideoSession.duration_seconds = [some 10]) := by
  decide

/-- C2 (amended): an "active" update stamps started_at only when it is
still unset and leaves it untouched on a repeated call; an "ended" update
on a started session stamps ended_at with the current time and stores as
duration the elapsed seconds modulo 86400 (the timedelta seconds
component); a repeated "ended" call re-stamps ended_at and recomputes the
duration from the new current time in the same way. -/
theorem update_video_session_status_amended (db : DB) (now : Int)
    (room_id : String) (s : VideoSession)
    (h : db.video_sessions.find? (fun t => t.room_id == room_id) = some s) :
    (s.started_at = none →
      (update_video_session_status db now room_id "active").1 =
        some { s with status := "active", started_at := some now }) ∧
    (∀ t0, s.started_at = some t0 →
      (update_video_session_status db now room_id "active").1 =
        some { s with status := "active" }) ∧
    (∀ t0, s.started_at = some t0 →
      (update_video_session_status db now room_id "ended").1 =
        some { s with status := "ended", ended_at := some now
                      duration_seconds := some ((now - t0).emod 86400) }) := by
  refine ⟨fun h0 => ?_, fun t0 h0 => ?_, fun t0 h0 => ?_⟩ <;>
    simp [update_video_session_status, h, apply_status_update, h0]

/-- Witness for the amended C2: ending the started concrete session, and
re-activating it without moving its start stamp. -/
theorem update_video_session_status_amended_witness :
    (update_video_session_status dbStarted 86401 "roomA" "ended").1 =
      some { sStarted with status := "ended", ended_at := some 86401
                           duration_seconds :=
                             some (((86401 : Int) - 0).emod 86400) } ∧
    (update_video_session_status dbStarted 5 "roomA" "active").1 =
      some { sStarted with status := "active" } := by
  have h := update_video_session_status_amended dbStarted 86401 "roomA"
    sStarted (by decide)
  have h2 := update_video_session_status_amended dbStarted 5 "roomA"
    sStarted (by decide)
  exact ⟨h.2.2 0 rfl, h2.2.1 0 rfl⟩

/-- Bulk-flipping the unread (a → b) messages removes exactly those rows
from b's unread count and no others. -/
theorem unread_after_mark (a b : User) (msgs : List Message) :
    ((msgs.map (fun m => if unreadFrom a b m then { m with is_read := 1 }
        else m)).filter
      (fun m => m.receiver_id == b.id && m.is_read == 0)).length
    + (msgs.filter (unreadFrom a b)).length
    = (msgs.filter
        (fun m => m.receiver_id == b.id && m.is_read == 0)).length := by
  induction msgs with
  | nil => simp
  | cons m t ih =>
      by_cases hm : unreadFrom a b m
      · have hm' := hm
        simp only [unreadFrom, Bool.and_eq_true, beq_iff_eq] at hm'
        obtain ⟨⟨hs, hr⟩, hz⟩ := hm'
        simp [List.filter_cons, hm, hr, hz]
        omega
      · by_cases hp : (m.receiver_id == b.id && m.is_read == 0) = true
        · simp [List.filter_cons, hm, hp]
          omega
        · simp [List.filter_cons, hm, hp]
          omega

/-- C5: marking the a-to-b messages read (b marking their conversation
with a) flips the read flag exactly on the previously-unread messages
from a to b, returns the number flipped, leaves every other row — in
particular every message sent by b — byte-identical, and b's unread
count drops by exactly the returned number. -/
theorem mark_messages_as_read_spec (db : DB) (a b : User)
    (aEmail bEmail : String)
    (hb : get_user_by_email db bEmail = some b)
    (ha : get_user_by_email db aEmail = some a)
    (hne : a.id ≠ b.id) :
    (mark_messages_as_read db bEmail aEmail).1 =
      (db.messages.filter (unreadFrom a b)).length ∧
    (mark_messages_as_read db bEmail aEmail).2.messages =
      db.messages.map (fun m =>
        if unreadFrom a b m then { m with is_read := 1 } else m) ∧
    (∀ m ∈ db.messages, unreadFrom a b m = false →
      m ∈ (mark_messages_as_read db bEmail aEmail).2.messages) ∧
    (∀ m ∈ db.messages, m.sender_id = b.id →
      m ∈ (mark_messages_as_read db bEmail aEmail).2.messages) ∧
    get_unread_count (mark_messages_as_read db bEmail aEmail).2 bEmail
      + (mark_messages_as_read db bEmail aEmail).1
      = get_unread_count db bEmail := by
  have h2 : (mark_messages_as_read db bEmail aEmail).2 =
      { db with messages := db.messages.map (fun m =>
          if unreadFrom a b m then { m with is_read := 1 } else m) } := by
    simp [mark_messages_as_read, hb, ha]
  have h1 : (mark_messages_as_read db bEmail aEmail).1 =
      (db.messages.filter (unreadFrom a b)).length := by
    simp [mark_messages_as_read, hb, ha]
  refine ⟨h1, by rw [h2], ?_, ?_, ?_⟩
  · intro m hm hcond
    rw [h2]
    exact List.mem_map.mpr ⟨m, hm, by simp [hcond]⟩
  · intro m hm hsend
    rw [h2]
    refine List.mem_map.mpr ⟨m, hm, ?_⟩
    have hcond : unreadFrom a b m = false := by
      simp [unreadFrom, hsend]
      intro hba
      exact absurd hba.symm hne
    simp [hcond]
  · rw [h2, h1]
    have hb2 : get_user_by_email
        { db with messages := db.messages.map (fun m =>
            if unreadFrom a b m then { m with is_read := 1 } else m) }
        bEmail = some b := hb
    simp only [get_unread_count, hb2, hb]
    exact unread_after_mark a b db.messages

/-- Witness for C5 on a concrete store with one unread message in each
direction between the two users. -/
theorem mark_messages_as_read_spec_witness :
    (mark_messages_as_read dbMsgs "bob@x.com" "alice@x.com").1 =
      (dbMsgs.messages.filter (unreadFrom uAlice uBob)).length ∧
    get_unread_count
        (mark_messages_as_read dbMsgs "bob@x.com" "alice@x.com").2
        "bob@x.com"
      + (mark_messages_as_read dbMsgs "bob@x.com" "alice@x.com").1
      = get_unread_count dbMsgs "bob@x.com" := by
  have h := mark_messages_as_read_spec dbMsgs uAlice uBob
    "alice@x.com" "bob@x.com" (by decide) (by decide) (by decide)
  exact ⟨h.1, h.2.2.2.2⟩

/-- C6: the conversation view between two resolved users is the
formatted image of a timestamp-ascending permutation of exactly the
stored messages exchanged between the two (in either direction), each
kept with its multiplicity and with no foreign message included. -/
theorem get_conversation_spec (db : DB) (u1 u2 : User) (e1 e2 : String)
    (h1 : get_user_by_email db e1 = some u1)
    (h2 : get_user_by_email db e2 = some u2) :
    get_conversation db e1 e2 =
      (conversation_messages db u1 u2).map
        (format_conversation_message db) ∧
    (conversation_messages db u1 u2).Perm
      (db.messages.filter (conversationFilter u1 u2)) ∧
    List.Sorted msgLe (conversation_messages db u1 u2) ∧
    (∀ m ∈ conversation_messages db u1 u2,
      conversationFilter u1 u2 m = true ∧ m ∈ db.messages) ∧
    (∀ m : Message, (conversation_messages db u1 u2).count m =
      (db.messages.filter (conversationFilter u1 u2)).count m) := by
  refine ⟨by simp [get_conversation, h1, h2],
          List.perm_insertionSort _ _, List.sorted_insertionSort _ _,
          ?_, ?_⟩
  · intro m hm
    have hm' : m ∈ db.messages.filter (conversationFilter u1 u2) :=
      (List.perm_insertionSort msgLe _).mem_iff.mp hm
    exact ⟨(List.mem_filter.mp hm').2, (List.mem_filter.mp hm').1⟩
  · intro m
    exact (List.perm_insertionSort msgLe _).count_eq m

/-- Witness for C6 on the concrete two-message store. -/
theorem get_conversation_spec_witness :
    get_conversation dbMsgs "alice@x.com" "bob@x.com" =
      (conversation_messages dbMsgs uAlice uBob).map
        (format_conversation_message dbMsgs) ∧
    List.Sorted msgLe (conversation_messages dbMsgs uAlice uBob) := by
  have h := get_conversation_spec dbMsgs uAlice uBob
    "alice@x.com" "bob@x.com" (by decide) (by decide)
  exact ⟨h.1, h.2.2.1⟩

/-- C9: the incoming-call poll returns nothing exactly when no stored
session has the polling user as second participant with status still
"created"; when it returns a session, that session is stored, has the
poller as second participant, has status "created", and carries the
maximal creation time among all such sessions — sessions in any other
status, or with the poller as first participant, are never returned. -/
theorem get_active_video_call_spec (db : DB) (email : String) :
    (get_active_video_call db email = none ↔
      db.video_sessions.filter
        (fun s => s.user2_email == email && s.status == "created") = []) ∧
    (∀ s, get_active_video_call db email = some s →
      s.user2_email = email ∧ s.status = "created" ∧
      s ∈ db.video_sessions ∧
      ∀ t ∈ db.video_sessions, t.user2_email = email →
        t.status = "created" → t.created_at ≤ s.created_at) := by
  have hperm := List.perm_insertionSort sessionCreatedGe
    (db.video_sessions.filter
      (fun s => s.user2_email == email && s.status == "created"))
  have hsorted := List.sorted_insertionSort sessionCreatedGe
    (db.video_sessions.filter
      (fun s => s.user2_email == email && s.status == "created"))
  constructor
  · rw [get_active_video_call, List.head?_eq_none_iff]
    constructor
    · intro hs
      rw [hs] at hperm
      exact hperm.symm.eq_nil
    · intro hl
      rw [hl]
      rfl
  · intro s hs
    rw [get_active_video_call] at hs
    cases hsort : List.insertionSort sessionCreatedGe
        (db.video_sessions.filter
          (fun s => s.user2_email == email && s.status == "created")) with
    | nil => rw [hsort] at hs; simp at hs
    | cons x xs =>
        rw [hsort] at hs hperm hsorted
        have hxs : x = s := by simpa using hs
        subst hxs
        have hmem : x ∈ db.video_sessions.filter
            (fun s => s.user2_email == email && s.status == "created") :=
          hperm.mem_iff.mp (List.mem_cons_self x xs)
        have hx := List.mem_filter.mp hmem
        have hx2 := hx.2
        simp only [Bool.and_eq_true, beq_iff_eq] at hx2
        refine ⟨hx2.1, hx2.2, hx.1, ?_⟩
        intro t ht hu2 hst
        have htl : t ∈ db.video_sessions.filter
            (fun s => s.user2_email == email && s.status == "created") :=
          List.mem_filter.mpr ⟨ht, by simp [hu2, hst]⟩
        rcases List.mem_cons.mp (hperm.mem_iff.mpr htl) with h | h
        · rw [h]
        · exact List.rel_of_sorted_cons hsorted t h

/-- Witness for C9: of the three concrete sessions the poll returns the
younger still-"created" one, and its creation time is maximal. -/
theorem get_active_video_call_spec_witness :
    sCall2.user2_email = "bob@x.com" ∧ sCall2.status = "created" ∧
    sCall2 ∈ dbCalls.video_sessions ∧
    ∀ t ∈ dbCalls.video_sessions, t.user2_email = "bob@x.com" →
      t.status = "created" → t.created_at ≤ sCall2.created_at :=
  (get_active_video_call_spec dbCalls "bob@x.com").2 sCall2 (by decide)

/-- Any element of updateFirst p f l is an element of l or the image
under f of an element of l. -/
theorem mem_updateFirst {α : Type} {p : α → Bool} {f : α → α}
    {l : List α} {y : α} (hy : y ∈ updateFirst p f l) :
    y ∈ l ∨ ∃ x ∈ l, y = f x := by
  induction l with
  | nil => simp [updateFirst] at hy
  | cons x xs ih =>
      by_cases hx : p x
      · simp only [updateFirst, if_pos hx] at hy
        rcases List.mem_cons.mp hy with h | h
        · exact Or.inr ⟨x, List.mem_cons_self x xs, h⟩
        · exact Or.inl (List.mem_cons_of_mem x h)
      · simp only [updateFirst, if_neg hx] at hy
        rcases List.mem_cons.mp hy with h | h
        · exact Or.inl (by rw [h]; exact List.mem_cons_self x xs)
        · rcases ih h with h1 | ⟨z, hz, hyz⟩
          · exact Or.inl (List.mem_cons_of_mem x h1)
          · exact Or.inr ⟨z, List.mem_cons_of_mem x hz, hyz⟩

/-- The status field written by apply_status_update is exactly the
status argument. -/
theorem apply_status_update_status (now : Int) (status : String)
    (s : VideoSession) :
    (apply_status_update now status s).status = status := by
  by_cases h1 : (status == "active" && s.started_at.isNone) = true
  · simp [apply_status_update, h1]
  · by_cases h2 : (status == "ended") = true
    · cases hst : s.started_at with
      | none =>
          simp [apply_status_update, h1, h2, hst]
          split <;> rfl
      | some t => simp [apply_status_update, h1, h2, hst]
    · simp [apply_status_update, h1, h2]

/-- apply_status_update preserves the duration/timestamps invariant. -/
theorem durationOk_apply_status_update (now : Int) (status : String)
    (s : VideoSession) (h : durationOk s = true) :
    durationOk (apply_status_update now status s) = true := by
  cases hd : s.duration_seconds <;> cases hst : s.started_at <;>
    cases he : s.ended_at <;>
    by_cases h2 : (status == "active") = true <;>
    by_cases h3 : (status == "ended") = true <;>
    simp_all [apply_status_update, durationOk]

/-- Every video-session operation preserves the duration/timestamps
invariant. -/
theorem durations_ok_applyVideoOp (db : DB) (op : VideoOp)
    (h : durations_ok db) : durations_ok (applyVideoOp db op) := by
  cases op with
  | create data room now =>
      intro v hv
      simp only [applyVideoOp, create_video_session, List.mem_append,
        List.mem_singleton] at hv
      rcases hv with h1 | h1
      · exact h v h1
      · subst h1; rfl
  | update room status now =>
      intro v hv
      cases hf : db.video_sessions.find? (fun s => s.room_id == room) with
      | none =>
          simp only [applyVideoOp, update_video_session_status, hf] at hv
          exact h v hv
      | some s =>
          simp only [applyVideoOp, update_video_session_status, hf] at hv
          rcases mem_updateFirst hv with h1 | ⟨x, hx, hfx⟩
          · exact h v h1
          · rw [hfx]
            exact durationOk_apply_status_update now status x (h x hx)
  | decline room =>
      intro v hv
      cases hf : db.video_sessions.find? (fun s => s.room_id == room) with
      | none =>
          simp only [applyVideoOp, decline_video_call, hf] at hv
          exact h v hv
      | some s =>
          simp only [applyVideoOp, decline_video_call, hf] at hv
          rcases mem_updateFirst hv with h1 | ⟨x, hx, hfx⟩
          · exact h v h1
          · rw [hfx]
            simpa [durationOk] using h x hx

/-- Every video-session operation whose status argument stays inside the
documented vocabulary preserves the status invariant. -/
theorem statuses_ok_applyVideoOp (db : DB) (op : VideoOp)
    (h : statuses_ok db) (hop : opStatusOk op = true) :
    statuses_ok (applyVideoOp db op) := by
  cases op with
  | create data room now =>
      intro v hv
      simp only [applyVideoOp, create_video_session, List.mem_append,
        List.mem_singleton] at hv
      rcases hv with h1 | h1
      · exact h v h1
      · subst h1; rfl
  | update room status now =>
      intro v hv
      cases hf : db.video_sessions.find? (fun s => s.room_id == room) with
      | none =>
          simp only [applyVideoOp, update_video_session_status, hf] at hv
          exact h v hv
      | some s =>
          simp only [applyVideoOp, update_video_session_status, hf] at hv
          rcases mem_updateFirst hv with h1 | ⟨x, hx, hfx⟩
          · exact h v h1
          · rw [hfx, apply_status_update_status]
            exact hop
  | decline room =>
      intro v hv
      cases hf : db.video_sessions.find? (fun s => s.room_id == room) with
      | none =>
          simp only [applyVideoOp, decline_video_call, hf] at hv
          exact h v hv
      | some s =>
          simp only [applyVideoOp, decline_video_call, hf] at hv
          rcases mem_updateFirst hv with h1 | ⟨x, hx, hfx⟩
          · exact h v h1
          · rw [hfx]; rfl

/-- Counterexample to C8 as stated: the status-updating operation takes
the caller's status string verbatim, so a single update call with the
string "zzz" on a well-formed store leaves a session whose status is
outside the documented set. -/
theorem video_status_c8_counterexample :
    statuses_ok dbCreatedRow ∧
    (runVideoOps dbCreatedRow
        [.update "roomC" "zzz" 0]).video_sessions.map VideoSession.status
      = ["zzz"] ∧
    statusOk "zzz" = false := by
  refine ⟨?_, by decide, by decide⟩
  unfold statuses_ok
  decide

/-- C8 (amended): after any sequence of video-session operations the
duration field is set only when both the start and end timestamps are
set; and provided every status-update call passes one of the documented
status strings, every stored session's status stays in
created/active/ended/declined. -/
theorem video_sessions_invariant_amended (db : DB) (ops : List VideoOp) :
    (durations_ok db → durations_ok (runVideoOps db ops)) ∧
    (statuses_ok db → (∀ op ∈ ops, opStatusOk op = true) →
      statuses_ok (runVideoOps db ops)) := by
  induction ops generalizing db with
  | nil => exact ⟨fun h => h, fun h _ => h⟩
  | cons op ops ih =>
      refine ⟨fun h => ?_, fun h hops => ?_⟩
      · exact (ih (applyVideoOp db op)).1 (durations_ok_applyVideoOp db op h)
      · exact (ih (applyVideoOp db op)).2
          (statuses_ok_applyVideoOp db op h
            (hops op (List.mem_cons_self op ops)))
          (fun o ho => hops o (List.mem_cons_of_mem op ho))

/-- Witness for the amended C8: a create–activate–end–decline run on an
empty store keeps both invariants. -/
theorem video_sessions_invariant_amended_witness :
    durations_ok (runVideoOps ({} : DB) opsW) ∧
    statuses_ok (runVideoOps ({} : DB) opsW) := by
  have h := video_sessions_invariant_amended ({} : DB) opsW
  exact ⟨h.1 (by unfold durations_ok; decide),
         h.2 (by unfold statuses_ok; decide) (by decide)⟩

/-- A successful user-by-id lookup returns a user bearing that id. -/
theorem get_user_by_id_eq_id {db : DB} {uid : Nat} {u : User}
    (h : get_user_by_id db uid = some u) : u.id = uid := by
  have := List.find?_some h
  simpa using this

/-- countP distributes over flatMap as a sum of per-element counts. -/
theorem countP_flatMap {α β : Type} (p : β → Bool) (f : α → List β)
    (l : List α) :
    List.countP p (l.flatMap f) =
      (l.map (fun x => List.countP p (f x))).sum := by
  induction l with
  | nil => simp
  | cons x xs ih => simp [List.flatMap_cons, List.countP_append, ih]

/-- Summing a constant over the elements satisfying a predicate. -/
theorem sum_map_ite {α : Type} (q : α → Bool) (K : Nat) (l : List α) :
    (l.map (fun x => if q x then K else 0)).sum =
      (l.filter q).length * K := by
  induction l with
  | nil => simp
  | cons x xs ih =>
      by_cases hq : q x
      · simp [List.filter_cons, hq, ih, Nat.add_mul, Nat.add_comm]
      · simp [List.filter_cons, hq, ih]

/-- Count of teach records referencing V inside the block generated by
one offer whose skill name is s: one per request row of V for s. -/
theorem teach_inner_countP (db : DB) (V : User) (s : String) (uid : Nat)
    (hVid : get_user_by_id db V.id = some V) (hne : V.id ≠ uid)
    (off : UserSkill) (hname : off.skill_name = s) :
    List.countP (isTeachMatchFor V s)
      (((db.skill_requests.filter
          (fun r => r.skill_name == off.skill_name)).filter
        (fun r => r.user_id != uid)).map (teachRecord db off))
    = List.countP (fun r => r.user_id == V.id && r.skill_name == s)
        db.skill_requests := by
  rw [List.countP_map, List.countP_filter, List.countP_filter]
  apply List.countP_congr
  intro r _
  simp only [Function.comp_apply, isTeachMatchFor, teachRecord,
    Bool.and_eq_true, beq_iff_eq, bne_iff_ne, ne_eq, hname]
  constructor
  · rintro ⟨⟨⟨⟨-, -⟩, hlook⟩, hneq⟩, hnm⟩
    exact ⟨(get_user_by_id_eq_id hlook).symm, hnm⟩
  · rintro ⟨hid, hnm⟩
    refine ⟨⟨⟨⟨trivial, trivial⟩, ?_⟩, ?_⟩, hnm⟩
    · rw [hid]; exact hVid
    · rw [hid]; exact hne

/-- An offer block for a skill other than s contributes no teach record
counted for s. -/
theorem teach_inner_countP_ne (db : DB) (V : User) (s : String)
    (uid : Nat) (off : UserSkill) (hname : off.skill_name ≠ s) :
    List.countP (isTeachMatchFor V s)
      (((db.skill_requests.filter
          (fun r => r.skill_name == off.skill_name)).filter
        (fun r => r.user_id != uid)).map (teachRecord db off)) = 0 := by
  rw [List.countP_eq_zero]
  intro m hm
  rcases List.mem_map.mp hm with ⟨r, -, rfl⟩
  simp [isTeachMatchFor, teachRecord, hname]

/-- Count of learn records referencing U inside the block generated by
one request whose skill name is s: one per offer row of U for s. -/
theorem learn_inner_countP (db : DB) (U : User) (s : String) (uid : Nat)
    (hUid : get_user_by_id db U.id = some U) (hne : U.id ≠ uid)
    (need : SkillRequest) (hname : need.skill_name = s) :
    List.countP (isLearnMatchFor U s)
      (((db.user_skills.filter
          (fun o => o.skill_name == need.skill_name)).filter
        (fun o => o.user_id != uid)).map (learnRecord db need))
    = List.countP (fun o => o.user_id == U.id && o.skill_name == s)
        db.user_skills := by
  rw [List.countP_map, List.countP_filter, List.countP_filter]
  apply List.countP_congr
  intro o _
  simp only [Function.comp_apply, isLearnMatchFor, learnRecord,
    Bool.and_eq_true, beq_iff_eq, bne_iff_ne, ne_eq, hname]
  constructor
  · rintro ⟨⟨⟨⟨-, -⟩, hlook⟩, hneq⟩, hnm⟩
    exact ⟨(get_user_by_id_eq_id hlook).symm, hnm⟩
  · rintro ⟨hid, hnm⟩
    refine ⟨⟨⟨⟨trivial, trivial⟩, ?_⟩, ?_⟩, hnm⟩
    · rw [hid]; exact hUid
    · rw [hid]; exact hne

/-- A request block for a skill other than s contributes no learn record
counted for s. -/
theorem learn_inner_countP_ne (db : DB) (U : User) (s : String)
    (uid : Nat) (need : SkillRequest) (hname : need.skill_name ≠ s) :
    List.countP (isLearnMatchFor U s)
      (((db.user_skills.filter
          (fun o => o.skill_name == need.skill_name)).filter
        (fun o => o.user_id != uid)).map (learnRecord db need)) = 0 := by
  rw [List.countP_eq_zero]
  intro m hm
  rcases List.mem_map.mp hm with ⟨o, -, rfl⟩
  simp [isLearnMatchFor, learnRecord, hname]

/-- Count of "you_can_teach" records for skill s referencing V in U's
match list: the number of U's offers of s times the number of V's
requests of s. -/
theorem teach_countP (db : DB) (U V : User) (s : String)
    (hU : get_user_by_email db U.email = some U)
    (hVid : get_user_by_id db V.id = some V)
    (hne : U.id ≠ V.id) :
    List.countP (isTeachMatchFor V s) (find_matches_by_email db U.email)
    = List.countP (fun o => o.user_id == U.id && o.skill_name == s)
        db.user_skills
      * List.countP (fun r => r.user_id == V.id && r.skill_name == s)
          db.skill_requests := by
  simp only [find_matches_by_email, hU]
  rw [List.countP_append]
  have hlearn : List.countP (isTeachMatchFor V s)
      ((skills_needed db U).flatMap (fun need =>
        (((db.user_skills.filter
            (fun o => o.skill_name == need.skill_name)).filter
          (fun o => o.user_id != U.id)).map (learnRecord db need)))) = 0 := by
    rw [List.countP_eq_zero]
    intro m hm
    rcases List.mem_flatMap.mp hm with ⟨need, -, hm2⟩
    rcases List.mem_map.mp hm2 with ⟨o, -, rfl⟩
    simp [isTeachMatchFor, learnRecord]
  rw [hlearn, Nat.add_zero, countP_flatMap]
  have hmap : (skills_offered db U).map (fun off =>
      List.countP (isTeachMatchFor V s)
        (((db.skill_requests.filter
            (fun r => r.skill_name == off.skill_name)).filter
          (fun r => r.user_id != U.id)).map (teachRecord db off)))
    = (skills_offered db U).map (fun off =>
        if off.skill_name == s
        then List.countP
              (fun r => r.user_id == V.id && r.skill_name == s)
              db.skill_requests
        else 0) := by
    apply List.map_congr_left
    intro off _
    by_cases h : off.skill_name = s
    · rw [if_pos (by simpa using h)]
      exact teach_inner_countP db V s U.id hVid
        (fun hc => hne hc.symm) off h
    · rw [if_neg (by simpa using h)]
      exact teach_inner_countP_ne db V s U.id off h
  rw [hmap, sum_map_ite]
  unfold skills_offered
  rw [← List.countP_eq_length_filter, List.countP_filter]
  have hcomm : List.countP
      (fun a => a.skill_name == s && a.user_id == U.id) db.user_skills
    = List.countP (fun o => o.user_id == U.id && o.skill_name == s)
        db.user_skills :=
    List.countP_congr (fun o _ => by rw [Bool.and_comm])
  rw [hcomm]

/-- Count of "you_can_learn" records for skill s referencing U in V's
match list: the number of V's requests of s times the number of U's
offers of s. -/
theorem learn_countP (db : DB) (U V : User) (s : String)
    (hV : get_user_by_email db V.email = some V)
    (hUid : get_user_by_id db U.id = some U)
    (hne : U.id ≠ V.id) :
    List.countP (isLearnMatchFor U s) (find_matches_by_email db V.email)
    = List.countP (fun r => r.user_id == V.id && r.skill_name == s)
        db.skill_requests
      * List.countP (fun o => o.user_id == U.id && o.skill_name == s)
          db.user_skills := by
  simp only [find_matches_by_email, hV]
  rw [List.countP_append]
  have hteach : List.countP (isLearnMatchFor U s)
      ((skills_offered db V).flatMap (fun off =>
        (((db.skill_requests.filter
            (fun r => r.skill_name == off.skill_name)).filter
          (fun r => r.user_id != V.id)).map (teachRecord db off)))) = 0 := by
    rw [List.countP_eq_zero]
    intro m hm
    rcases List.mem_flatMap.mp hm with ⟨off, -, hm2⟩
    rcases List.mem_map.mp hm2 with ⟨r, -, rfl⟩
    simp [isLearnMatchFor, teachRecord]
  rw [hteach, Nat.zero_add, countP_flatMap]
  have hmap : (skills_needed db V).map (fun need =>
      List.countP (isLearnMatchFor U s)
        (((db.user_skills.filter
            (fun o => o.skill_name == need.skill_name)).filter
          (fun o => o.user_id != V.id)).map (learnRecord db need)))
    = (skills_needed db V).map (fun need =>
        if need.skill_name == s
        then List.countP
              (fun o => o.user_id == U.id && o.skill_name == s)
              db.user_skills
        else 0) := by
    apply List.map_congr_left
    intro need _
    by_cases h : need.skill_name = s
    · rw [if_pos (by simpa using h)]
      exact learn_inner_countP db U s V.id hUid hne need h
    · rw [if_neg (by simpa using h)]
      exact learn_inner_countP_ne db U s V.id need h
  rw [hmap, sum_map_ite]
  unfold skills_needed
  rw [← List.countP_eq_length_filter, List.countP_filter]
  have hcomm : List.countP
      (fun a => a.skill_name == s && a.user_id == V.id) db.skill_requests
    = List.countP (fun r => r.user_id == V.id && r.skill_name == s)
        db.skill_requests :=
    List.countP_congr (fun r _ => by rw [Bool.and_comm])
  rw [hcomm]

/-- No match record emitted for a user ever references that user. -/
theorem find_matches_no_self (db : DB) (E : String) (u : User)
    (hu : get_user_by_email db E = some u) :
    ∀ m ∈ find_matches_by_email db E, m.matched_user ≠ some u := by
  intro m hm hcon
  simp only [find_matches_by_email, hu] at hm
  rcases List.mem_append.mp hm with h | h
  · rcases List.mem_flatMap.mp h with ⟨off, -, h2⟩
    rcases List.mem_map.mp h2 with ⟨r, hr, rfl⟩
    have hru : (r.user_id != u.id) = true := (List.mem_filter.mp hr).2
    have hlook : get_user_by_id db r.user_id = some u := by
      simpa [teachRecord] using hcon
    have hid := get_user_by_id_eq_id hlook
    simp only [bne_iff_ne, ne_eq] at hru
    exact hru hid.symm
  · rcases List.mem_flatMap.mp h with ⟨need, -, h2⟩
    rcases List.mem_map.mp h2 with ⟨o, ho, rfl⟩
    have hou : (o.user_id != u.id) = true := (List.mem_filter.mp ho).2
    have hlook : get_user_by_id db o.user_id = some u := by
      simpa [learnRecord] using hcon
    have hid := get_user_by_id_eq_id hlook
    simp only [bne_iff_ne, ne_eq] at hou
    exact hou hid.symm

/-- C1: for stored users U and V (distinct ids, each the user its email
and id resolve to) and any skill name s, U's match list contains exactly
one "you_can_teach" record referencing V per (U-offer of s, V-request of
s) pair — their count is the product of the two row counts — and V's
match list symmetrically contains exactly one "you_can_learn" record
referencing U per such pair; and no match record in either list ever
references the user whose matches were requested (no self-matches). -/
theorem find_matches_spec (db : DB) (U V : User) (s : String)
    (hU : get_user_by_email db U.email = some U)
    (hUid : get_user_by_id db U.id = some U)
    (hV : get_user_by_email db V.email = some V)
    (hVid : get_user_by_id db V.id = some V)
    (hne : U.id ≠ V.id) :
    ((find_matches_by_email db U.email).filter
        (isTeachMatchFor V s)).length
      = (db.user_skills.filter
          (fun o => o.user_id == U.id && o.skill_name == s)).length
        * (db.skill_requests.filter
            (fun r => r.user_id == V.id && r.skill_name == s)).length ∧
    ((find_matches_by_email db V.email).filter
        (isLearnMatchFor U s)).length
      = (db.skill_requests.filter
          (fun r => r.user_id == V.id && r.skill_name == s)).length
        * (db.user_skills.filter
            (fun o => o.user_id == U.id && o.skill_name == s)).length ∧
    (∀ m ∈ find_matches_by_email db U.email,
      m.matched_user ≠ some U) ∧
    (∀ m ∈ find_matches_by_email db V.email,
      m.matched_user ≠ some V) := by
  refine ⟨?_, ?_, find_matches_no_self db U.email U hU,
          find_matches_no_self db V.email V hV⟩
  · have h := teach_countP db U V s hU hVid hne
    simpa [List.countP_eq_length_filter] using h
  · have h := learn_countP db U V s hV hUid hne
    simpa [List.countP_eq_length_filter] using h

/-- Witness for C1: Alice offers guitar, Bob requests guitar; Alice's
matches hold exactly one teach record for Bob and Bob's exactly one
learn record for Alice. -/
theorem find_matches_spec_witness :
    ((find_matches_by_email dbMatch uAlice.email).filter
        (isTeachMatchFor uBob "guitar")).length
      = (dbMatch.user_skills.filter
          (fun o => o.user_id == uAlice.id && o.skill_name == "guitar")).length
        * (dbMatch.skill_requests.filter
            (fun r => r.user_id == uBob.id &&
              r.skill_name == "guitar")).length ∧
    ((find_matches_by_email dbMatch uBob.email).filter
        (isLearnMatchFor uAlice "guitar")).length
      = (dbMatch.skill_requests.filter
          (fun r => r.user_id == uBob.id && r.skill_name == "guitar")).length
        * (dbMatch.user_skills.filter
            (fun o => o.user_id == uAlice.id &&
              o.skill_name == "guitar")).length ∧
    (∀ m ∈ find_matches_by_email dbMatch uAlice.email,
      m.matched_user ≠ some uAlice) ∧
    (∀ m ∈ find_matches_by_email dbMatch uBob.email,
      m.matched_user ≠ some uBob) :=
  find_matches_spec dbMatch uAlice uBob "guitar" (by decide) (by decide)
    (by decide) (by decide) (by decide)
